import Mathlib

/-! Shallow embedding of `a2a-bridge.py` (A2A-to-OpenAI JSON-RPC bridge).

JSON values are modelled by an inductive type; JSON numbers are modelled as
integers, since no claim depends on non-integer numerics.  Python
dynamic-typing failures (`AttributeError`, `TypeError`, `KeyError`,
`IndexError`, `json.JSONDecodeError`) are modelled explicitly with an error
type, because the request handler catches only some of them.  External
effects are modelled as parameters: `json.loads` on upstream stream payloads
is a `String → Option Json` parameter, `uuid.uuid4()` is a `String`
parameter bound once per call, and the single upstream HTTP exchange is an
explicit outcome value. -/

inductive Json where
  | null
  | bool (b : Bool)
  | num (n : Int)
  | str (s : String)
  | arr (elems : List Json)
  | obj (fields : List (String × Json))

/-- Rendered forms of the Python exceptions the bridge can raise while
traversing dynamic data.  `keyError` and `indexError` carry the `str()`
rendering of the exception (used by `f"Bad gateway response: {e}"`). -/
inductive PyErr where
  | keyError (rendered : String)
  | indexError (msg : String)
  | typeError
  | attributeError
  | jsonDecodeError
deriving DecidableEq, Repr

/-- Lookup in a JSON object, later duplicate keys overriding earlier ones,
matching the dict produced by `json.loads`. -/
def jlookup : List (String × Json) → String → Option Json
  | [], _ => none
  | (k, v) :: rest, key =>
    match jlookup rest key with
    | some r => some r
    | none => if k = key then some v else none

/-- Python `d.get(key, dflt)`: requires a dict (else `AttributeError`). -/
def pyGetD (j : Json) (key : String) (dflt : Json) : Except PyErr Json :=
  match j with
  | .obj fields => .ok ((jlookup fields key).getD dflt)
  | _ => .error .attributeError

/-- Python repr of a string: quote choice and basic escapes, as used by
`str()` on exceptions and containers.  Control characters beyond
tab/newline/carriage-return are out of model (no claim exercises them). -/
def pyEscapeChar (q : Char) (c : Char) : String :=
  if c = '\\' then "\\\\"
  else if c = q then "\\" ++ String.singleton q
  else if c = '\n' then "\\n"
  else if c = '\r' then "\\r"
  else if c = '\t' then "\\t"
  else String.singleton c

def pyStrRepr (s : String) : String :=
  let q : Char := if s.data.contains '\'' && !(s.data.contains '"') then '"' else '\''
  String.singleton q ++ String.join (s.data.map (pyEscapeChar q)) ++ String.singleton q

mutual

/-- Python `repr` of a JSON-shaped object (dicts/lists print with their
elements repr-ed). -/
def pyRepr : Json → String
  | .null => "None"
  | .bool true => "True"
  | .bool false => "False"
  | .num n => toString n
  | .str s => pyStrRepr s
  | .arr xs => "[" ++ String.intercalate ", " (pyReprList xs) ++ "]"
  | .obj fs => "\x7b" ++ String.intercalate ", " (pyReprFields fs) ++ "\x7d"

def pyReprList : List Json → List String
  | [] => []
  | x :: xs => pyRepr x :: pyReprList xs

def pyReprFields : List (String × Json) → List String
  | [] => []
  | (k, v) :: fs => (pyStrRepr k ++ ": " ++ pyRepr v) :: pyReprFields fs

end

/-- Python `str()` / f-string interpolation of a JSON-shaped object. -/
def pyStr : Json → String
  | .str s => s
  | j => pyRepr j

/-- Python `x[key]` subscripting with a string key: `KeyError` on a dict
missing the key, `TypeError` on any non-dict. -/
def pyGetItem (j : Json) (key : String) : Except PyErr Json :=
  match j with
  | .obj fields =>
    match jlookup fields key with
    | some v => .ok v
    | none => .error (.keyError (pyStrRepr key))
  | _ => .error .typeError

/-- Python `x[0]`: first element of a list (or first character of a string),
`IndexError` when empty, `KeyError` on a dict (JSON object keys are strings,
so the key `0` is always absent), `TypeError` otherwise. -/
def pyIdx0 : Json → Except PyErr Json
  | .arr [] => .error (.indexError "list index out of range")
  | .arr (x :: _) => .ok x
  | .obj _ => .error (.keyError "0")
  | .str s =>
    match s.data with
    | [] => .error (.indexError "string index out of range")
    | c :: _ => .ok (.str (String.singleton c))
  | _ => .error .typeError

/-- Python truthiness of a JSON-shaped object. -/
def pyTruthy : Json → Bool
  | .null => false
  | .bool b => b
  | .num n => n != 0
  | .str s => !s.isEmpty
  | .arr xs => !xs.isEmpty
  | .obj fs => !fs.isEmpty

/-- Python `for x in j`: lists yield elements, strings yield one-character
strings, dicts yield their keys; other values raise `TypeError`.  (Objects
are those built by `json.loads`, so keys are unique.) -/
def pyIterate : Json → Except PyErr (List Json)
  | .arr xs => .ok xs
  | .str s => .ok (s.data.map (fun c => .str (String.singleton c)))
  | .obj fs => .ok (fs.map (fun kv => .str kv.1))
  | _ => .error .typeError

/-- `"\n".join(texts)` requires every element to be a string (`TypeError`
otherwise); this extracts the strings when they are all strings. -/
def asStrings : List Json → Option (List String)
  | [] => some []
  | .str s :: rest => (asStrings rest).map (fun ss => s :: ss)
  | _ :: _ => none

/-- The characters Python `str.strip()` and the regex class `\s` treat as
whitespace (ASCII fragment; the inputs of interest are ASCII). -/
def isPySpace (c : Char) : Bool :=
  c = ' ' || c = '\t' || c = '\n' || c = '\r' || c = '\x0b' || c = '\x0c'

def pyStripList (l : List Char) : List Char :=
  ((l.dropWhile isPySpace).reverse.dropWhile isPySpace).reverse

/-- Python `s.strip()`. -/
def pyStrip (s : String) : String :=
  String.mk (pyStripList s.data)

/-- Python `s[:n]` (slicing counts characters of the decoded string). -/
def pyTruncate (s : String) (n : Nat) : String :=
  String.mk (s.data.take n)

/-! ## Identity resolver: `extract_sender_id` (a2a-bridge.py lines 38-59)

The regex `URI=spiffe://[^/]+/sa/([^;,\s]+)` is embedded as an explicit
leftmost-match search over the character list: at a given position the
pattern matches iff the literal marker is followed by a non-empty run of
non-slash characters (the greedy `[^/]+` can only stop at the first slash),
then the literal `/sa/`, then a non-empty maximal run of characters that are
not `;`, `,` or whitespace (the capture). -/

def spiffeMarker : List Char := "URI=spiffe://".data

def saLit : List Char := ['/', 's', 'a', '/']

def notSlash (c : Char) : Bool := !(c == '/')

def stopChar (c : Char) : Bool := c == ';' || c == ',' || isPySpace c

def notStop (c : Char) : Bool := !(stopChar c)

/-- Strip an expected literal from the front of a character list. -/
def stripLit : List Char → List Char → Option (List Char)
  | [], l => some l
  | _ :: _, [] => none
  | p :: ps, c :: cs => if c = p then stripLit ps cs else none

/-- Attempt the SPIFFE pattern at one position; returns the capture group. -/
def matchSpiffeAt (l : List Char) : Option String :=
  match stripLit spiffeMarker l with
  | none => none
  | some rest =>
    let domain := rest.takeWhile notSlash
    if domain.isEmpty then none
    else
      match stripLit saLit (rest.dropWhile notSlash) with
      | none => none
      | some rest2 =>
        let name := rest2.takeWhile notStop
        if name.isEmpty then none else some (String.mk name)

/-- `re.search`: try each start position from the left, first success wins. -/
def searchSpiffe : List Char → Option String
  | [] => none
  | c :: cs =>
    match matchSpiffeAt (c :: cs) with
    | some n => some n
    | none => searchSpiffe cs

/-- `extract_sender_id(http_headers)` (lines 38-59), with the two header
values it reads passed explicitly; a missing header is the empty string
(the source reads both with `.get(key, "")`). -/
def extract_sender_id (xfcc user : String) : Option String :=
  match (if xfcc ≠ "" then searchSpiffe xfcc.data else none) with
  | some name => some ("a2a:" ++ name)
  | none => if user ≠ "" then some user else none

/-- Headers attached by `call_gateway` (lines 62-82): the sender identity
hint `x-openclaw-user` is attached only when a truthy sender id was
resolved. -/
def call_gateway_headers (gateway_token agent_id : String)
    (sender_id : Option String) : List (String × String) :=
  [("Content-Type", "application/json"),
   ("Authorization", "Bearer " ++ gateway_token)]
  ++ (if agent_id ≠ "" then [("x-openclaw-agent-id", agent_id)] else [])
  ++ (match sender_id with
      | some s => if s ≠ "" then [("x-openclaw-user", s)] else []
      | none => [])

/-! ## Text extraction: `extract_text` (lines 85-91) -/

/-- Python `part.get("kind") == "text"` on a dict: true exactly when the
`kind` value is the string `"text"`. -/
def isKindText (fs : List (String × Json)) : Bool :=
  match jlookup fs "kind" with
  | some (.str s) => s = "text"
  | _ => false

/-- The per-part loop body of `extract_text`: a part must be a dict (else
`part.get` raises `AttributeError`); its text is collected when
`part.get("kind") == "text" and "text" in part`. -/
def collectTexts : List Json → Except PyErr (List Json)
  | [] => .ok []
  | part :: rest =>
    match part with
    | .obj fs =>
      if isKindText fs then
        match jlookup fs "text" with
        | some v =>
          match collectTexts rest with
          | .ok texts => .ok (v :: texts)
          | .error e => .error e
        | none => collectTexts rest
      else collectTexts rest
    | _ => .error .attributeError

/-- `extract_text(parts)` (lines 85-91): iterate the parts, collect the text
of every `"kind": "text"` part that has a `"text"` key, newline-join. -/
def extract_text (parts : Json) : Except PyErr String :=
  match pyIterate parts with
  | .error e => .error e
  | .ok items =>
    match collectTexts items with
    | .error e => .error e
    | .ok texts =>
      match asStrings texts with
      | some ss => .ok (String.intercalate "\n" ss)
      | none => .error .typeError

/-! ## Response builders (lines 94-118) -/

/-- `a2a_result(rpc_id, text)` (lines 94-109); the `str(uuid.uuid4())` fresh
task identifier is the `task_id` parameter, and `text` is the Python object
taken from the gateway reply (a JSON value). -/
def a2a_result (rpc_id : Json) (task_id : String) (text : Json) : Json :=
  .obj [("jsonrpc", .str "2.0"), ("id", rpc_id),
        ("result", .obj
          [("id", .str task_id),
           ("status", .obj
             [("state", .str "COMPLETED"),
              ("message", .obj
                [("role", .str "agent"),
                 ("parts", .arr [.obj [("kind", .str "text"), ("text", text)]])])])])]

/-- `a2a_error(rpc_id, code, message)` (lines 112-118). -/
def a2a_error (rpc_id : Json) (code : Int) (message : String) : Json :=
  .obj [("jsonrpc", .str "2.0"), ("id", rpc_id),
        ("error", .obj [("code", .num code), ("message", .str message)])]

/-! ## Streaming path: `_handle_stream` (lines 200-270)

The upstream body is a list of decoded lines; `json.loads` on a payload is
the `parse` parameter (`none` = `json.JSONDecodeError`); the downstream
caller is assumed connected (writes succeed), matching the claims'
hypotheses.  `task_id` is the `str(uuid.uuid4())` generated once at line
201. -/

/-- The WORKING event dict built at lines 233-246. -/
def workingEvent (rpc_id : Json) (task_id : String) (content : String) : Json :=
  .obj [("jsonrpc", .str "2.0"), ("id", rpc_id),
        ("result", .obj
          [("id", .str task_id),
           ("status", .obj
             [("state", .str "WORKING"),
              ("message", .obj
                [("role", .str "agent"),
                 ("parts", .arr [.obj [("kind", .str "text"),
                                       ("text", .str content)]])])])])]

/-- The final COMPLETED event dict built at lines 252-265. -/
def completedEvent (rpc_id : Json) (task_id : String) (collected : String) : Json :=
  .obj [("jsonrpc", .str "2.0"), ("id", rpc_id),
        ("result", .obj
          [("id", .str task_id),
           ("status", .obj
             [("state", .str "COMPLETED"),
              ("message", .obj
                [("role", .str "agent"),
                 ("parts", .arr [.obj [("kind", .str "text"),
                                       ("text", .str collected)]])])])])]

/-- `chunk.get("choices", [\x7b\x7d])[0].get("delta", \x7b\x7d).get("content", "")`
(lines 229-230). -/
def streamDeltaContent (chunk : Json) : Except PyErr Json :=
  match pyGetD chunk "choices" (.arr [.obj []]) with
  | .error e => .error e
  | .ok choices =>
    match pyIdx0 choices with
    | .error e => .error e
    | .ok c0 =>
      match pyGetD c0 "delta" (.obj []) with
      | .error e => .error e
      | .ok delta => pyGetD delta "content" (.str "")

/-- Outcome of processing one upstream line (lines 220-249). -/
inductive LineStep where
  | noise
  | done
  | skip
  | emit (content : String)
  | crash (e : PyErr)
deriving DecidableEq, Repr

/-- Whether the line processing raised an uncaught exception. -/
def LineStep.isCrash : LineStep → Bool
  | .crash _ => true
  | _ => false

/-- One iteration of the `for line in resp` loop (lines 220-249): strip the
line; ignore lines without the `data: ` marker (the source's
`line.startswith("data: ")` followed by `line[6:]` is modelled by stripping
the 6-character marker in one step); `[DONE]` stops the read;
otherwise parse the payload, where a parse failure, a `KeyError` or
`IndexError` during delta traversal, or a falsy content is silently skipped
(the `except` clause at line 248), a truthy string content is emitted, and
any other exception (`AttributeError`, `TypeError`) escapes the loop. -/
def processLine (parse : String → Option Json) (rawLine : String) : LineStep :=
  match stripLit "data: ".data (pyStripList rawLine.data) with
  | none => .noise
  | some payloadChars =>
    let payload := String.mk payloadChars
    if payload = "[DONE]" then .done
    else
      match parse payload with
      | none => .skip
      | some chunk =>
        match streamDeltaContent chunk with
        | .error (.keyError _) => .skip
        | .error (.indexError _) => .skip
        | .error e => .crash e
        | .ok content =>
          if pyTruthy content then
            match content with
            | .str s => .emit s
            | _ => .crash .typeError
          else .skip

/-- The streaming loop of `_handle_stream` (lines 218-266): returns the SSE
event payloads written downstream, in order, and `some e` when an uncaught
exception aborted the stream (in which case events written before the crash
are kept and no COMPLETED event follows); otherwise the last event is the
single COMPLETED event carrying the accumulated text. -/
def streamLoop (parse : String → Option Json) (rpc_id : Json) (task_id : String) :
    List String → String → List Json × Option PyErr
  | [], collected => ([completedEvent rpc_id task_id collected], none)
  | l :: ls, collected =>
    match processLine parse l with
    | .noise => streamLoop parse rpc_id task_id ls collected
    | .skip => streamLoop parse rpc_id task_id ls collected
    | .done => ([completedEvent rpc_id task_id collected], none)
    | .crash e => ([], some e)
    | .emit s =>
      let rest := streamLoop parse rpc_id task_id ls (collected ++ s)
      (workingEvent rpc_id task_id s :: rest.1, rest.2)

/-- The non-empty content fragments of a stream, in the order the code
emits them (stopping at `[DONE]` or at an uncaught crash). -/
def streamFragments (parse : String → Option Json) : List String → List String
  | [] => []
  | l :: ls =>
    match processLine parse l with
    | .emit s => s :: streamFragments parse ls
    | .done => []
    | .crash _ => []
    | .noise => streamFragments parse ls
    | .skip => streamFragments parse ls

/-- Concatenation of a list of strings (the running `collected_text`). -/
def concatList (ls : List String) : String := ls.foldr (fun a b => a ++ b) ""

/-- The task identifier carried by an outbound event (`result.id`). -/
def eventTaskId (ev : Json) : Option Json :=
  match ev with
  | .obj fs =>
    match jlookup fs "result" with
    | some (.obj rs) => jlookup rs "id"
    | _ => none
  | _ => none

/-! ## Request path: `do_POST` (lines 151-198) and `_handle_send` -/

/-- The fields `do_POST` reads from the parsed request body (lines 161-166). -/
structure Inbound where
  rpc_id : Json
  method : Json
  user_text : String

/-- Lines 161-166: `req.get("id")`, `req.get("method", "")`,
`req.get("params", \x7b\x7d)`, `params.get("message", \x7b\x7d)`,
`message.get("parts", [])`, `extract_text(parts)`.  Any `AttributeError` /
`TypeError` raised on non-dict containers propagates (it is not caught in
`do_POST`). -/
def extractInbound (req : Json) : Except PyErr Inbound :=
  match pyGetD req "id" .null with
  | .error e => .error e
  | .ok rpc_id =>
    match pyGetD req "method" (.str "") with
    | .error e => .error e
    | .ok method =>
      match pyGetD req "params" (.obj []) with
      | .error e => .error e
      | .ok params =>
        match pyGetD params "message" (.obj []) with
        | .error e => .error e
        | .ok message =>
          match pyGetD message "parts" (.arr []) with
          | .error e => .error e
          | .ok parts =>
            match extract_text parts with
            | .error e => .error e
            | .ok user_text => .ok ⟨rpc_id, method, user_text⟩

/-- Where `do_POST` sends the call after parsing and validation. -/
inductive Dispatch where
  | respond (status : Nat) (body : Json)
  | send (rpc_id : Json) (user_text : String)
  | stream (rpc_id : Json) (user_text : String)
  | crash (e : PyErr)

/-- `do_POST` up to method dispatch (lines 151-184): a body that does not
parse as JSON is answered `400` with a `-32700` envelope; an empty
`user_text` is answered `200` with the `-32602` envelope before the method
is examined; then the method selects `_handle_send`, `_handle_stream`, or
the `-32601` envelope. -/
def do_POST_dispatch : Option Json → Dispatch
  | none => .respond 400 (a2a_error .null (-32700) "Parse error")
  | some req =>
    match extractInbound req with
    | .error e => .crash e
    | .ok ib =>
      if ib.user_text = "" then
        .respond 200 (a2a_error ib.rpc_id (-32602) "No text in message parts")
      else
        match ib.method with
        | .str s =>
          if s = "message/send" then .send ib.rpc_id ib.user_text
          else if s = "message/stream" then .stream ib.rpc_id ib.user_text
          else .respond 200
            (a2a_error ib.rpc_id (-32601) ("Unknown method: " ++ pyStr (.str s)))
        | m => .respond 200 (a2a_error ib.rpc_id (-32601) ("Unknown method: " ++ pyStr m))

/-- Result of the single upstream exchange made by `_handle_send`:
an `HTTPError` exposes a readable error body (decoded, then truncated by the
handler), a bare `URLError` only its `str()` description; a 2xx reply is a
parsed JSON body, or `unparseable` when `json.loads(resp.read())` fails
(that `JSONDecodeError` is not caught at lines 192/197). -/
inductive GatewayOutcome where
  | errorWithBody (body : String)
  | errorNoBody (desc : String)
  | ok (body : Json)
  | unparseable

/-- `data["choices"][0]["message"]["content"]` (line 190). -/
def sendExtract (data : Json) : Except PyErr Json :=
  match pyGetItem data "choices" with
  | .error e => .error e
  | .ok choices =>
    match pyIdx0 choices with
    | .error e => .error e
    | .ok c0 =>
      match pyGetItem c0 "message" with
      | .error e => .error e
      | .ok message => pyGetItem message "content"

/-- `_handle_send` (lines 186-198): transport failures become `-32000`
envelopes (an `HTTPError` body is truncated to 500 characters); a parsed
reply yields `a2a_result` on success, a `-32000` envelope when traversal
raises `KeyError`/`IndexError`, and an uncaught exception otherwise. -/
def handle_send (rpc_id : Json) (task_id : String) (outcome : GatewayOutcome) :
    Except PyErr (Nat × Json) :=
  match outcome with
  | .errorWithBody body =>
    .ok (200, a2a_error rpc_id (-32000) ("Gateway error: " ++ pyTruncate body 500))
  | .errorNoBody desc =>
    .ok (200, a2a_error rpc_id (-32000) ("Gateway error: " ++ desc))
  | .unparseable => .error .jsonDecodeError
  | .ok data =>
    match sendExtract data with
    | .ok text => .ok (200, a2a_result rpc_id task_id text)
    | .error (.keyError r) =>
      .ok (200, a2a_error rpc_id (-32000) ("Bad gateway response: " ++ r))
    | .error (.indexError m) =>
      .ok (200, a2a_error rpc_id (-32000) ("Bad gateway response: " ++ m))
    | .error e => .error e

/-- Result of the upstream exchange made by `_handle_stream`: either the
stream failed to establish (same two error shapes as `GatewayOutcome`), or
it was established and yields a list of decoded lines. -/
inductive StreamOutcome where
  | errorWithBody (body : String)
  | errorNoBody (desc : String)
  | ok (lines : List String)

/-- What the handler writes back for one POST: a single JSON response, or an
opened SSE channel with its ordered event payloads (plus `some e` if an
uncaught exception aborted it mid-stream), or an uncaught exception before
any response was started. -/
inductive POSTResult where
  | json (status : Nat) (body : Json)
  | sse (events : List Json) (crashed : Option PyErr)
  | crash (e : PyErr)

/-- `_handle_stream` (lines 200-270): establishment failure is a single
`-32000` JSON envelope; otherwise the SSE channel is opened and fed by
`streamLoop`. -/
def handle_stream (parse : String → Option Json) (rpc_id : Json) (task_id : String) :
    StreamOutcome → POSTResult
  | .errorWithBody body =>
    .json 200 (a2a_error rpc_id (-32000) ("Gateway error: " ++ pyTruncate body 500))
  | .errorNoBody desc =>
    .json 200 (a2a_error rpc_id (-32000) ("Gateway error: " ++ desc))
  | .ok lines =>
    let r := streamLoop parse rpc_id task_id lines ""
    .sse r.1 r.2

/-- Full behaviour of `do_POST` on one request: dispatch, then the selected
handler applied to the outcome of the (at most one) upstream call.
`task_id` models the one `str(uuid.uuid4())` of the call. -/
def bridgePOST (parse : String → Option Json) (parsed : Option Json)
    (task_id : String) (sendOut : GatewayOutcome) (streamOut : StreamOutcome) :
    POSTResult :=
  match do_POST_dispatch parsed with
  | .respond status body => .json status body
  | .crash e => .crash e
  | .send rpc_id _ =>
    match handle_send rpc_id task_id sendOut with
    | .ok (status, body) => .json status body
    | .error e => .crash e
  | .stream rpc_id _ => handle_stream parse rpc_id task_id streamOut

/-! ## Claim-side characterizations

These definitions follow the wording of the specification (not the code) and
are used to state the claims; the theorems relate them to the embedded
source functions. -/

/-- The specification's SPIFFE pattern, as a structural decomposition: the
suffix `l` is a URI-form SPIFFE identity `URI=spiffe://<domain>/sa/<name>`
where `<domain>` is a non-empty run without `/`, and `<name>` is the
non-empty maximal run stopping at the next `;`, `,` or whitespace (maximal:
what follows is empty or starts with a stop character). -/
def SpiffeSuffixMatch (l : List Char) (name : String) : Prop :=
  ∃ domain rest, l = spiffeMarker ++ domain ++ saLit ++ name.data ++ rest ∧
    domain ≠ [] ∧ (∀ c ∈ domain, notSlash c = true) ∧
    name.data ≠ [] ∧ (∀ c ∈ name.data, notStop c = true) ∧
    (∀ c, rest.head? = some c → notStop c = false)

/-- The first (leftmost) SPIFFE identity in the header value: a match at
position `i` with no match at any earlier position. -/
def SpiffeFound (l : List Char) (name : String) : Prop :=
  ∃ i, SpiffeSuffixMatch (l.drop i) name ∧
    ∀ j, j < i → ∀ m, ¬ SpiffeSuffixMatch (l.drop j) m

/-- A message part of kind `"text"` (claim-side). -/
def isTextKind (p : Json) : Bool :=
  match p with
  | .obj fs => isKindText fs
  | _ => false

/-- The text carried by a (well-shaped) message part. -/
def specPartText (p : Json) : String :=
  match p with
  | .obj fs =>
    match jlookup fs "text" with
    | some (.str s) => s
    | _ => ""
  | _ => ""

/-- Modelled from the spec: newline-join of exactly the text-kind parts, in
original order. -/
def specTextContent (parts : List Json) : String :=
  String.intercalate "\n" ((parts.filter (fun p => isTextKind p)).map specPartText)

/-- A message part of the shape the spec's inbound surface documents
(`\x7bkind, text\x7d` objects): an object, and when its kind is `"text"` it
carries a string under `"text"`. -/
def wellShapedPart (p : Json) : Bool :=
  match p with
  | .obj fs =>
    if isKindText fs then
      match jlookup fs "text" with
      | some (.str _) => true
      | _ => false
    else true
  | _ => false

/-- An inbound body of the JSON-RPC shape the spec documents
(`\x7bjsonrpc, id, method, params:\x7bmessage:\x7bparts:[...]\x7d\x7d\x7d`):
an object whose `params`, `message` and `parts` fields, where present, have
the documented container types, with well-shaped parts. -/
def wellShapedReq (req : Json) : Bool :=
  match req with
  | .obj fs =>
    match (jlookup fs "params").getD (.obj []) with
    | .obj ps =>
      match (jlookup ps "message").getD (.obj []) with
      | .obj ms =>
        match (jlookup ms "parts").getD (.arr []) with
        | .arr parts => parts.all wellShapedPart
        | _ => false
      | _ => false
    | _ => false
  | _ => false

/-- Total field access on JSON (claim-side, for stating which values the
handler echoes). -/
def jGetD (j : Json) (key : String) (dflt : Json) : Json :=
  match j with
  | .obj fs => (jlookup fs key).getD dflt
  | _ => dflt

/-- The parts list of an inbound request (claim-side). -/
def reqPartsList (req : Json) : List Json :=
  match jGetD (jGetD (jGetD req "params" (.obj [])) "message" (.obj [])) "parts" (.arr []) with
  | .arr ps => ps
  | _ => []

/-- The expected shape of a successful non-streaming gateway reply carrying
text `t`: `\x7bchoices:[\x7bmessage:\x7bcontent: t\x7d\x7d]\x7d`. -/
def mkChatBody (t : Json) : Json :=
  .obj [("choices", .arr [.obj [("message", .obj [("content", t)])]])]

/-! ## Basic lemmas -/

theorem strAppendEmpty : ∀ (s : String), s ++ "" = s
  | ⟨l⟩ => congrArg String.mk (List.append_nil l)

theorem strEmptyAppend : ∀ (s : String), "" ++ s = s
  | ⟨_⟩ => rfl

theorem strAppendAssoc : ∀ (a b c : String), a ++ b ++ c = a ++ (b ++ c)
  | ⟨a⟩, ⟨b⟩, ⟨c⟩ => congrArg String.mk (List.append_assoc a b c)

theorem stripLit_append : ∀ (p l : List Char), stripLit p (p ++ l) = some l
  | [], _ => rfl
  | c :: ps, l => by simp [stripLit, stripLit_append ps l]

theorem stripLit_eq_append :
    ∀ (p l r : List Char), stripLit p l = some r → l = p ++ r
  | [], l, r, h => by simpa [stripLit] using h
  | _ :: _, [], _, h => nomatch h
  | p₀ :: ps, c :: cs, r, h => by
    by_cases hc : c = p₀
    · subst hc
      simp only [stripLit, if_pos rfl] at h
      simpa using stripLit_eq_append ps cs r h
    · simp [stripLit, hc] at h

theorem takeWhile_all_stop {α} (p : α → Bool) :
    ∀ (d t : List α), (∀ c ∈ d, p c = true) →
      (∀ c, t.head? = some c → p c = false) →
      (d ++ t).takeWhile p = d ∧ (d ++ t).dropWhile p = t
  | [], t, _, ht => by
    cases t with
    | nil => simp
    | cons c ts => simp [List.takeWhile, List.dropWhile, ht c rfl]
  | a :: d, t, hd, ht => by
    have ha : p a = true := hd a (by simp)
    have ih := takeWhile_all_stop p d t (fun c hc => hd c (by simp [hc])) ht
    simp [List.takeWhile, List.dropWhile, ha, ih.1, ih.2]

theorem head?_dropWhile_false {α} (p : α → Bool) :
    ∀ (l : List α) (a : α), (l.dropWhile p).head? = some a → p a = false
  | [], _, h => nomatch h
  | x :: xs, a, h => by
    by_cases hx : p x = true
    · rw [List.dropWhile_cons_of_pos hx] at h
      exact head?_dropWhile_false p xs a h
    · rw [List.dropWhile_cons_of_neg hx] at h
      cases h
      exact Bool.eq_false_iff.mpr hx

theorem spiffeMarker_ne_nil : spiffeMarker ≠ [] := by decide

theorem not_spiffeSuffixMatch_nil (n : String) : ¬ SpiffeSuffixMatch [] n := by
  rintro ⟨d, r, h, -⟩
  have h' := h.symm
  simp only [List.append_eq_nil] at h'
  exact spiffeMarker_ne_nil h'.1.1.1.1

/-- Soundness half of the regex embedding: a structural SPIFFE decomposition
is found by `matchSpiffeAt`. -/
theorem matchSpiffeAt_sound {l : List Char} {n : String}
    (h : SpiffeSuffixMatch l n) : matchSpiffeAt l = some n := by
  obtain ⟨d, rest, hl, hd0, hdall, hn0, hnall, hrest⟩ := h
  have hX : l = spiffeMarker ++ (d ++ (saLit ++ (n.data ++ rest))) := by
    rw [hl]; simp [List.append_assoc]
  have ht : ∀ c, (saLit ++ (n.data ++ rest)).head? = some c → notSlash c = false := by
    intro c hc
    simp only [saLit, List.cons_append, List.head?_cons, Option.some.injEq] at hc
    subst hc
    rfl
  have hsplit := takeWhile_all_stop notSlash d (saLit ++ (n.data ++ rest)) hdall ht
  have hname := takeWhile_all_stop notStop n.data rest hnall hrest
  have hde : d.isEmpty = false := by
    cases d with
    | nil => exact absurd rfl hd0
    | cons a as => rfl
  have hne : n.data.isEmpty = false := by
    cases hnd : n.data with
    | nil => exact absurd hnd hn0
    | cons a as => rfl
  unfold matchSpiffeAt
  rw [hX, stripLit_append]
  simp [hsplit.1, hsplit.2, hde, stripLit_append, hname.1, hne]

/-- Completeness half: what `matchSpiffeAt` finds is a structural SPIFFE
decomposition. -/
theorem matchSpiffeAt_complete {l : List Char} {n : String}
    (h : matchSpiffeAt l = some n) : SpiffeSuffixMatch l n := by
  unfold matchSpiffeAt at h
  cases hstrip : stripLit spiffeMarker l with
  | none => rw [hstrip] at h; exact absurd h (by simp)
  | some rest =>
    rw [hstrip] at h
    simp only at h
    by_cases hde : (rest.takeWhile notSlash).isEmpty
    · rw [if_pos hde] at h; exact absurd h (by simp)
    · rw [if_neg hde] at h
      cases hsa : stripLit saLit (rest.dropWhile notSlash) with
      | none => rw [hsa] at h; exact absurd h (by simp)
      | some rest2 =>
        rw [hsa] at h
        simp only at h
        by_cases hne : (rest2.takeWhile notStop).isEmpty
        · rw [if_pos hne] at h; exact absurd h (by simp)
        · rw [if_neg hne] at h
          have hn : n = String.mk (rest2.takeWhile notStop) := by
            cases h; rfl
          have hnd : n.data = rest2.takeWhile notStop := by rw [hn]
          have e1 : l = spiffeMarker ++ rest := stripLit_eq_append _ _ _ hstrip
          have e3 : rest.dropWhile notSlash = saLit ++ rest2 :=
            stripLit_eq_append _ _ _ hsa
          have e2 : rest = rest.takeWhile notSlash ++ (saLit ++ rest2) := by
            rw [← e3]
            exact (List.takeWhile_append_dropWhile ..).symm
          have e4 : rest2 = n.data ++ rest2.dropWhile notStop := by
            rw [hnd]
            exact (List.takeWhile_append_dropWhile ..).symm
          refine ⟨rest.takeWhile notSlash, rest2.dropWhile notStop, ?_, ?_, ?_, ?_, ?_, ?_⟩
          · conv_lhs => rw [e1, e2, e4]
            simp [List.append_assoc]
          · intro hnil; rw [hnil] at hde; exact hde rfl
          · intro c hc; exact List.mem_takeWhile_imp hc
          · rw [hnd]
            intro hnil
            rw [hnil] at hne
            exact hne rfl
          · intro c hc
            rw [hnd] at hc
            exact List.mem_takeWhile_imp hc
          · intro c hc
            exact head?_dropWhile_false notStop rest2 c hc

/-- `searchSpiffe` returns the leftmost match. -/
theorem searchSpiffe_of_found :
    ∀ (l : List Char) (n : String), SpiffeFound l n → searchSpiffe l = some n
  | [], n, ⟨i, hm, _⟩ => by
    rw [List.drop_nil] at hm
    exact absurd hm (not_spiffeSuffixMatch_nil n)
  | c :: cs, n, ⟨i, hm, hmin⟩ => by
    cases i with
    | zero =>
      rw [List.drop_zero] at hm
      unfold searchSpiffe
      rw [matchSpiffeAt_sound hm]
    | succ i' =>
      have hnone : matchSpiffeAt (c :: cs) = none := by
        cases hma : matchSpiffeAt (c :: cs) with
        | none => rfl
        | some m =>
          exact absurd (by simpa using matchSpiffeAt_complete hma)
            (hmin 0 (Nat.succ_pos i') m)
      unfold searchSpiffe
      rw [hnone]
      exact searchSpiffe_of_found cs n
        ⟨i', by simpa using hm, fun j hj m => by
          simpa using hmin (j + 1) (Nat.succ_lt_succ hj) m⟩

/-- `searchSpiffe` finds nothing when no position matches. -/
theorem searchSpiffe_of_none :
    ∀ (l : List Char), (∀ i m, ¬ SpiffeSuffixMatch (l.drop i) m) →
      searchSpiffe l = none
  | [], _ => rfl
  | c :: cs, h => by
    have hnone : matchSpiffeAt (c :: cs) = none := by
      cases hma : matchSpiffeAt (c :: cs) with
      | none => rfl
      | some m =>
        exact absurd (by simpa using matchSpiffeAt_complete hma) (h 0 m)
    unfold searchSpiffe
    rw [hnone]
    exact searchSpiffe_of_none cs (fun i m => by simpa using h (i + 1) m)

/-! ## The claims -/

/-- C2: the Identity Resolver implements the fixed, total three-step
precedence: a forwarded-client-certificate header containing a URI-form
SPIFFE identity `spiffe://<domain>/sa/<name>` resolves to `"a2a:" + <name>`
(the first such match, `<name>` stopping at `;`, `,` or whitespace) even
when a caller-identity header is present; otherwise a non-empty
caller-identity header is returned verbatim; otherwise identity is absent
and no `x-openclaw-user` identity hint is attached to the outbound call. -/
theorem c2_identity_precedence (xfcc user : String) :
    (∀ n, SpiffeFound xfcc.data n →
      extract_sender_id xfcc user = some ("a2a:" ++ n))
    ∧ ((∀ i m, ¬ SpiffeSuffixMatch (xfcc.data.drop i) m) → user ≠ "" →
      extract_sender_id xfcc user = some user)
    ∧ ((∀ i m, ¬ SpiffeSuffixMatch (xfcc.data.drop i) m) → user = "" →
      extract_sender_id xfcc user = none)
    ∧ (∀ tok aid, extract_sender_id xfcc user = none →
      "x-openclaw-user" ∉ (call_gateway_headers tok aid (extract_sender_id xfcc user)).map Prod.fst) := by
  refine ⟨?_, ?_, ?_, ?_⟩
  · intro n hf
    have hx : xfcc ≠ "" := by
      intro he
      subst he
      obtain ⟨i, hm, -⟩ := hf
      rw [show ("" : String).data = [] from rfl, List.drop_nil] at hm
      exact not_spiffeSuffixMatch_nil n hm
    unfold extract_sender_id
    rw [if_pos hx, searchSpiffe_of_found _ _ hf]
  · intro hno huser
    by_cases hx : xfcc = ""
    · subst hx
      simp [extract_sender_id, huser]
    · unfold extract_sender_id
      rw [if_pos hx, searchSpiffe_of_none _ hno]
      simp [huser]
  · intro hno huser
    subst huser
    by_cases hx : xfcc = ""
    · subst hx
      simp [extract_sender_id]
    · unfold extract_sender_id
      rw [if_pos hx, searchSpiffe_of_none _ hno]
      simp
  · intro tok aid h
    rw [h]
    by_cases haid : aid = "" <;> simp [call_gateway_headers, haid]

/-- Witness for C2: a concrete XFCC header with a SPIFFE identity wins over
a concrete caller-identity header. -/
theorem c2_identity_precedence_witness :
    extract_sender_id "URI=spiffe://cluster.local/sa/weather-agent" "bob"
      = some "a2a:weather-agent" := by
  refine (c2_identity_precedence "URI=spiffe://cluster.local/sa/weather-agent" "bob").1
    "weather-agent" ⟨0, ?_, ?_⟩
  · refine ⟨"cluster.local".data, [], ?_, ?_, ?_, ?_, ?_, ?_⟩
    · decide
    · decide
    · decide
    · decide
    · decide
    · intro c hc
      exact absurd hc (by simp)
  · intro j hj m
    exact absurd hj (by omega)

/-- Reduction of `bridgePOST` once the dispatch is known: immediate response. -/
theorem bridgePOST_respond (parse : String → Option Json) (parsed : Option Json)
    (tid : String) (sendOut : GatewayOutcome) (streamOut : StreamOutcome)
    (status : Nat) (body : Json)
    (hd : do_POST_dispatch parsed = .respond status body) :
    bridgePOST parse parsed tid sendOut streamOut = .json status body := by
  unfold bridgePOST
  rw [hd]

/-- Reduction of `bridgePOST` once the dispatch is known: non-streaming send. -/
theorem bridgePOST_send (parse : String → Option Json) (parsed : Option Json)
    (tid : String) (sendOut : GatewayOutcome) (streamOut : StreamOutcome)
    (rpc : Json) (txt : String)
    (hd : do_POST_dispatch parsed = .send rpc txt) :
    bridgePOST parse parsed tid sendOut streamOut
      = (match handle_send rpc tid sendOut with
         | .ok (status, body) => POSTResult.json status body
         | .error e => POSTResult.crash e) := by
  unfold bridgePOST
  rw [hd]

/-- Reduction of `bridgePOST` once the dispatch is known: streaming send. -/
theorem bridgePOST_stream (parse : String → Option Json) (parsed : Option Json)
    (tid : String) (sendOut : GatewayOutcome) (streamOut : StreamOutcome)
    (rpc : Json) (txt : String)
    (hd : do_POST_dispatch parsed = .stream rpc txt) :
    bridgePOST parse parsed tid sendOut streamOut
      = handle_stream parse rpc tid streamOut := by
  unfold bridgePOST
  rw [hd]

/-- Every upstream event carries the task id generated once for the call. -/
theorem eventTaskId_workingEvent (r : Json) (t s : String) :
    eventTaskId (workingEvent r t s) = some (.str t) := rfl

theorem eventTaskId_completedEvent (r : Json) (t s : String) :
    eventTaskId (completedEvent r t s) = some (.str t) := rfl

/-- When no line of the stream raises an uncaught exception, `streamLoop`
emits exactly one WORKING event per extracted fragment, in order, followed
by the single COMPLETED event carrying the accumulated text. -/
theorem streamLoop_ok (parse : String → Option Json) (rpc : Json) (tid : String) :
    ∀ (lines : List String) (acc : String),
      (∀ l ∈ lines, (processLine parse l).isCrash = false) →
      streamLoop parse rpc tid lines acc
        = ((streamFragments parse lines).map (workingEvent rpc tid)
            ++ [completedEvent rpc tid (acc ++ concatList (streamFragments parse lines))],
           none)
  | [], acc, _ => by
    simp [streamLoop, streamFragments, concatList, strAppendEmpty]
  | l :: ls, acc, h => by
    have hrest : ∀ l' ∈ ls, (processLine parse l').isCrash = false :=
      fun l' hl' => h l' (by simp [hl'])
    cases hp : processLine parse l with
    | noise =>
      simp only [streamLoop, streamFragments, hp,
        streamLoop_ok parse rpc tid ls acc hrest]
    | skip =>
      simp only [streamLoop, streamFragments, hp,
        streamLoop_ok parse rpc tid ls acc hrest]
    | done =>
      simp [streamLoop, streamFragments, hp, concatList, strAppendEmpty]
    | crash e =>
      have := h l (by simp)
      rw [hp] at this
      exact absurd this (by simp [LineStep.isCrash])
    | emit s =>
      simp only [streamLoop, streamFragments, hp,
        streamLoop_ok parse rpc tid ls (acc ++ s) hrest, concatList,
        List.map_cons, List.cons_append, List.foldr_cons]
      rw [strAppendAssoc]

/-- C1: for every streaming call (method `message/stream`) whose upstream
stream is established and whose lines process without an uncaught
exception (the downstream caller staying connected is a modelling
assumption), the bridge emits one WORKING event per non-empty incremental
content fragment, in the order received, each carrying exactly that
fragment, followed by exactly one final COMPLETED event carrying the
concatenation of all fragments; every event carries the single task
identifier generated once for the call. -/
theorem c1_streaming_protocol (parse : String → Option Json) (parsed : Option Json)
    (tid : String) (rpc : Json) (txt : String) (lines : List String)
    (sendOut : GatewayOutcome)
    (hd : do_POST_dispatch parsed = .stream rpc txt)
    (hok : ∀ l ∈ lines, (processLine parse l).isCrash = false) :
    bridgePOST parse parsed tid sendOut (.ok lines)
      = .sse ((streamFragments parse lines).map (workingEvent rpc tid)
          ++ [completedEvent rpc tid (concatList (streamFragments parse lines))]) none
    ∧ ∀ ev ∈ (streamFragments parse lines).map (workingEvent rpc tid)
          ++ [completedEvent rpc tid (concatList (streamFragments parse lines))],
        eventTaskId ev = some (.str tid) := by
  constructor
  · rw [bridgePOST_stream parse parsed tid sendOut (.ok lines) rpc txt hd]
    show POSTResult.sse (streamLoop parse rpc tid lines "").1
      (streamLoop parse rpc tid lines "").2 = _
    rw [streamLoop_ok parse rpc tid lines "" hok, strEmptyAppend]
  · intro ev hev
    rcases List.mem_append.mp hev with hm | hm
    · obtain ⟨s, -, rfl⟩ := List.mem_map.mp hm
      rfl
    · rw [List.mem_singleton.mp hm]
      rfl

/-! ## Concrete fixtures for witnesses and counterexamples -/

/-- Models `json.loads` on the finitely many upstream payload strings used
in the concrete examples below; each listed mapping is the value
`json.loads` produces for that string, and every other payload string
occurring in the examples is invalid JSON (mapped to `none`). -/
def jsonParseFix : String → Option Json := fun s =>
  if s = "\x7b\"choices\":[\x7b\"delta\":\x7b\"content\":\"a\"\x7d\x7d]\x7d" then
    some (.obj [("choices", .arr [.obj [("delta", .obj [("content", .str "a")])]])])
  else if s = "\x7b\"choices\":[\x7b\"delta\":\x7b\"content\":\"b\"\x7d\x7d]\x7d" then
    some (.obj [("choices", .arr [.obj [("delta", .obj [("content", .str "b")])]])])
  else if s = "5" then some (.num 5)
  else none

/-- A well-formed `message/stream` request carrying the text `"go"`. -/
def streamReq : Json :=
  .obj [("jsonrpc", .str "2.0"), ("id", .str "rq-1"),
        ("method", .str "message/stream"),
        ("params", .obj [("message", .obj [("parts", .arr
          [.obj [("kind", .str "text"), ("text", .str "go")]])])])]

/-- A well-formed `message/send` request carrying the text `"hi"`. -/
def sendReq : Json :=
  .obj [("jsonrpc", .str "2.0"), ("id", .str "c-4"),
        ("method", .str "message/send"),
        ("params", .obj [("message", .obj [("parts", .arr
          [.obj [("kind", .str "text"), ("text", .str "hi")]])])])]

/-- An upstream SSE stream: two content fragments then the sentinel. -/
def demoLines : List String :=
  ["data: \x7b\"choices\":[\x7b\"delta\":\x7b\"content\":\"a\"\x7d\x7d]\x7d",
   "data: \x7b\"choices\":[\x7b\"delta\":\x7b\"content\":\"b\"\x7d\x7d]\x7d",
   "data: [DONE]"]

/-- Witness for C1: the demo stream produces WORKING("a"), WORKING("b"),
COMPLETED("ab"), in that order, all carrying the call's one task
identifier. -/
theorem c1_streaming_protocol_witness :
    bridgePOST jsonParseFix (some streamReq) "task-1" (.ok .null) (.ok demoLines)
      = .sse [workingEvent (.str "rq-1") "task-1" "a",
              workingEvent (.str "rq-1") "task-1" "b",
              completedEvent (.str "rq-1") "task-1" "ab"] none
    ∧ ∀ ev ∈ [workingEvent (.str "rq-1") "task-1" "a",
              workingEvent (.str "rq-1") "task-1" "b",
              completedEvent (.str "rq-1") "task-1" "ab"],
        eventTaskId ev = some (.str "task-1") := by
  have h := c1_streaming_protocol jsonParseFix (some streamReq) "task-1" (.str "rq-1")
    "go" demoLines (.ok .null) rfl (by decide)
  refine ⟨by rw [h.1]; rfl, fun ev hev => h.2 ev hev⟩

/-! ## C3: text extraction -/

theorem asStrings_map_str : ∀ (ss : List String), asStrings (ss.map Json.str) = some ss
  | [] => rfl
  | s :: ss => by simp [asStrings, asStrings_map_str ss]

theorem collectTexts_wellShaped :
    ∀ (parts : List Json), (∀ p ∈ parts, wellShapedPart p = true) →
      collectTexts parts
        = .ok (((parts.filter (fun p => isTextKind p)).map specPartText).map Json.str)
  | [], _ => rfl
  | part :: rest, h => by
    have hrest := collectTexts_wellShaped rest (fun p hp => h p (by simp [hp]))
    have hpart := h part (by simp)
    cases part with
    | obj fs =>
      cases hkt : isKindText fs with
      | false =>
        simp [collectTexts, hkt, hrest, List.filter_cons, isTextKind]
      | true =>
        rw [wellShapedPart, if_pos hkt] at hpart
        cases ht : jlookup fs "text" with
        | none => rw [ht] at hpart; exact absurd hpart (by simp)
        | some v =>
          cases v with
          | str s =>
            simp [collectTexts, hkt, ht, hrest, List.filter_cons, isTextKind,
              specPartText]
          | null => rw [ht] at hpart; exact absurd hpart (by simp)
          | bool b => rw [ht] at hpart; exact absurd hpart (by simp)
          | num n => rw [ht] at hpart; exact absurd hpart (by simp)
          | arr xs => rw [ht] at hpart; exact absurd hpart (by simp)
          | obj gs => rw [ht] at hpart; exact absurd hpart (by simp)
    | null => exact absurd hpart (by simp [wellShapedPart])
    | bool b => exact absurd hpart (by simp [wellShapedPart])
    | num n => exact absurd hpart (by simp [wellShapedPart])
    | str s => exact absurd hpart (by simp [wellShapedPart])
    | arr xs => exact absurd hpart (by simp [wellShapedPart])

/-- On spec-shaped parts, `extract_text` computes the spec's `textContent`. -/
theorem extract_text_wellShaped (parts : List Json)
    (hws : ∀ p ∈ parts, wellShapedPart p = true) :
    extract_text (.arr parts) = .ok (specTextContent parts) := by
  have h2 : asStrings (((parts.filter (fun p => isTextKind p)).map specPartText).map Json.str)
      = some ((parts.filter (fun p => isTextKind p)).map specPartText) :=
    asStrings_map_str _
  rw [List.map_map] at h2
  simp [extract_text, pyIterate, collectTexts_wellShaped parts hws, h2,
    specTextContent]

/-- C3: for every inbound payload with at least one text part, the derived
`textContent` is the newline-join of exactly the `"text"`-kind parts, in
original order, all other kinds excluded. -/
theorem c3_text_content (parts : List Json)
    (hws : ∀ p ∈ parts, wellShapedPart p = true)
    (_hsome : parts.any isTextKind = true) :
    extract_text (.arr parts) = .ok (specTextContent parts) :=
  extract_text_wellShaped parts hws

/-- Witness for C3: a text part, a file part, a text part join to `"a\nb"`. -/
theorem c3_text_content_witness :
    extract_text (.arr [.obj [("kind", .str "text"), ("text", .str "a")],
                        .obj [("kind", .str "file"), ("uri", .str "u")],
                        .obj [("kind", .str "text"), ("text", .str "b")]])
      = .ok "a\nb" := by
  rw [c3_text_content _ (by decide) (by decide)]
  rfl

/-! ## Validation path: C5 and C10 -/

/-- On a spec-shaped inbound body, the field extraction of `do_POST`
succeeds and computes the spec's `textContent`. -/
theorem extractInbound_wellShaped (req : Json) (h : wellShapedReq req = true) :
    extractInbound req
      = .ok ⟨jGetD req "id" .null, jGetD req "method" (.str ""),
             specTextContent (reqPartsList req)⟩ := by
  cases req with
  | obj fs =>
    cases hp : (jlookup fs "params").getD (.obj []) with
    | obj ps =>
      cases hm : (jlookup ps "message").getD (.obj []) with
      | obj ms =>
        cases hpp : (jlookup ms "parts").getD (.arr []) with
        | arr parts =>
          have hall : ∀ p ∈ parts, wellShapedPart p = true := by
            have h' := h
            simp only [wellShapedReq, hp, hm, hpp] at h'
            exact fun p hp' => List.all_eq_true.mp h' p hp'
          have htext := extract_text_wellShaped parts hall
          have hparts : reqPartsList (.obj fs) = parts := by
            simp [reqPartsList, jGetD, hp, hm, hpp]
          simp [extractInbound, pyGetD, hp, hm, hpp, htext, jGetD, hparts]
        | null => simp [wellShapedReq, hp, hm, hpp] at h
        | bool b => simp [wellShapedReq, hp, hm, hpp] at h
        | num n => simp [wellShapedReq, hp, hm, hpp] at h
        | str s => simp [wellShapedReq, hp, hm, hpp] at h
        | obj os => simp [wellShapedReq, hp, hm, hpp] at h
      | null => simp [wellShapedReq, hp, hm] at h
      | bool b => simp [wellShapedReq, hp, hm] at h
      | num n => simp [wellShapedReq, hp, hm] at h
      | str s => simp [wellShapedReq, hp, hm] at h
      | arr xs => simp [wellShapedReq, hp, hm] at h
    | null => simp [wellShapedReq, hp] at h
    | bool b => simp [wellShapedReq, hp] at h
    | num n => simp [wellShapedReq, hp] at h
    | str s => simp [wellShapedReq, hp] at h
    | arr xs => simp [wellShapedReq, hp] at h
  | null => simp [wellShapedReq] at h
  | bool b => simp [wellShapedReq] at h
  | num n => simp [wellShapedReq] at h
  | str s => simp [wellShapedReq] at h
  | arr xs => simp [wellShapedReq] at h

/-- C5: for every spec-shaped inbound payload with zero text parts, the
bridge answers HTTP 200 with the `-32602` error envelope
`"No text in message parts"`, echoing the original correlation identifier
(`null` when absent), and makes no upstream call (the response is
independent of both upstream outcomes). -/
theorem c5_empty_text (parse : String → Option Json) (req : Json) (tid : String)
    (sendOut sendOut' : GatewayOutcome) (streamOut streamOut' : StreamOutcome)
    (hws : wellShapedReq req = true)
    (hzero : (reqPartsList req).any isTextKind = false) :
    bridgePOST parse (some req) tid sendOut streamOut
      = .json 200 (a2a_error (jGetD req "id" .null) (-32602) "No text in message parts")
    ∧ bridgePOST parse (some req) tid sendOut streamOut
      = bridgePOST parse (some req) tid sendOut' streamOut' := by
  have hforall : ∀ a ∈ reqPartsList req, isTextKind a = false := by
    intro a ha
    cases hta : isTextKind a with
    | false => rfl
    | true =>
      have : (reqPartsList req).any isTextKind = true :=
        List.any_eq_true.mpr ⟨a, ha, by rw [hta]⟩
      rw [hzero] at this
      exact absurd this (by simp)
  have hfilter : (reqPartsList req).filter (fun p => isTextKind p) = [] := by
    rw [List.filter_eq_nil_iff]
    intro a ha
    rw [hforall a ha]
    simp
  have hempty : specTextContent (reqPartsList req) = "" := by
    unfold specTextContent
    rw [hfilter]
    rfl
  have hd : do_POST_dispatch (some req)
      = .respond 200 (a2a_error (jGetD req "id" .null) (-32602) "No text in message parts") := by
    simp only [do_POST_dispatch]
    rw [extractInbound_wellShaped req hws]
    simp [hempty]
  exact ⟨bridgePOST_respond parse (some req) tid sendOut streamOut _ _ hd,
    by rw [bridgePOST_respond parse (some req) tid sendOut streamOut _ _ hd,
      bridgePOST_respond parse (some req) tid sendOut' streamOut' _ _ hd]⟩

/-- A spec-shaped request with a single non-text part and no `id`. -/
def noTextReq : Json :=
  .obj [("jsonrpc", .str "2.0"), ("method", .str "message/send"),
        ("params", .obj [("message", .obj [("parts", .arr
          [.obj [("kind", .str "file"), ("uri", .str "u")]])])])]

/-- Witness for C5: a file-only payload without `id` is answered with the
`-32602` envelope carrying `id: null`, whatever the upstream would do. -/
theorem c5_empty_text_witness :
    bridgePOST jsonParseFix (some noTextReq) "t5" (.ok .null) (.ok [])
      = .json 200 (a2a_error .null (-32602) "No text in message parts") := by
  rw [(c5_empty_text jsonParseFix noTextReq "t5" (.ok .null) (.errorNoBody "e")
    (.ok []) (.ok ["x"]) (by decide) (by decide)).1]
  rfl

/-- C10: the empty-text validation precedes method dispatch: every
spec-shaped, parseable request whose parts yield an empty `textContent`
(including an unrecognized or absent method, and including text parts
carrying empty strings) is answered with the `-32602` envelope — never the
`-32601` one — and the response is independent of the method field and of
both upstream outcomes (no upstream call). -/
theorem c10_validation_precedence (parse : String → Option Json) (req : Json)
    (tid : String) (sendOut sendOut' : GatewayOutcome)
    (streamOut streamOut' : StreamOutcome)
    (hws : wellShapedReq req = true)
    (hempty : specTextContent (reqPartsList req) = "") :
    bridgePOST parse (some req) tid sendOut streamOut
      = .json 200 (a2a_error (jGetD req "id" .null) (-32602) "No text in message parts")
    ∧ (∀ msg, POSTResult.json 200 (a2a_error (jGetD req "id" .null) (-32602) "No text in message parts")
        ≠ .json 200 (a2a_error (jGetD req "id" .null) (-32601) msg))
    ∧ bridgePOST parse (some req) tid sendOut streamOut
      = bridgePOST parse (some req) tid sendOut' streamOut' := by
  have hd : do_POST_dispatch (some req)
      = .respond 200 (a2a_error (jGetD req "id" .null) (-32602) "No text in message parts") := by
    simp only [do_POST_dispatch]
    rw [extractInbound_wellShaped req hws]
    simp [hempty]
  refine ⟨bridgePOST_respond parse (some req) tid sendOut streamOut _ _ hd, ?_, ?_⟩
  · intro msg h
    simp [a2a_error] at h
  · rw [bridgePOST_respond parse (some req) tid sendOut streamOut _ _ hd,
      bridgePOST_respond parse (some req) tid sendOut' streamOut' _ _ hd]

/-- A spec-shaped request with no method and one empty-string text part. -/
def emptyTextReq : Json :=
  .obj [("id", .num 11),
        ("params", .obj [("message", .obj [("parts", .arr
          [.obj [("kind", .str "text"), ("text", .str "")]])])])]

/-- Witness for C10: method absent and the only text part empty — still the
`-32602` envelope. -/
theorem c10_validation_precedence_witness :
    bridgePOST jsonParseFix (some emptyTextReq) "t10" (.ok .null) (.ok [])
      = .json 200 (a2a_error (.num 11) (-32602) "No text in message parts") := by
  rw [(c10_validation_precedence jsonParseFix emptyTextReq "t10" (.ok .null)
    (.errorNoBody "e") (.ok []) (.ok ["x"]) (by decide) (by decide)).1]
  rfl

/-! ## Non-streaming send: C4, C6, C7 -/

/-- C4: for every non-streaming send (`message/send` with non-empty
textContent, i.e. a call dispatched to `_handle_send`), a success body of
shape `\x7bchoices:[\x7bmessage:\x7bcontent: t\x7d\x7d]\x7d` yields an RPC
success envelope echoing the call's correlation identifier, with state
`COMPLETED`, the freshly generated task identifier, and a single text part
carrying exactly `t`. -/
theorem c4_send_success (parse : String → Option Json) (parsed : Option Json)
    (tid : String) (streamOut : StreamOutcome) (rpc t : Json) (txt : String)
    (hd : do_POST_dispatch parsed = .send rpc txt) :
    bridgePOST parse parsed tid (.ok (mkChatBody t)) streamOut
      = .json 200 (Json.obj [("jsonrpc", .str "2.0"), ("id", rpc),
          ("result", .obj
            [("id", .str tid),
             ("status", .obj
               [("state", .str "COMPLETED"),
                ("message", .obj
                  [("role", .str "agent"),
                   ("parts", .arr [.obj [("kind", .str "text"), ("text", t)]])])])])]) := by
  rw [bridgePOST_send parse parsed tid (.ok (mkChatBody t)) streamOut rpc txt hd]
  rfl

/-- Witness for C4: upstream replies `"hello"`, the bridge completes with a
single `"hello"` text part under the request's id `"c-4"`. -/
theorem c4_send_success_witness :
    bridgePOST jsonParseFix (some sendReq) "task-4" (.ok (mkChatBody (.str "hello"))) (.ok [])
      = .json 200 (Json.obj [("jsonrpc", .str "2.0"), ("id", .str "c-4"),
          ("result", .obj
            [("id", .str "task-4"),
             ("status", .obj
               [("state", .str "COMPLETED"),
                ("message", .obj
                  [("role", .str "agent"),
                   ("parts", .arr [.obj [("kind", .str "text"),
                                         ("text", .str "hello")]])])])])]) :=
  c4_send_success jsonParseFix (some sendReq) "task-4" (.ok []) (.str "c-4")
    (.str "hello") "hi" rfl

/-- C6: for every non-streaming send on which the transport fails, the
bridge answers with outer HTTP status 200 and a `-32000` envelope echoing
the correlation identifier, whose message embeds the upstream error body
truncated to at most 500 characters (readable `HTTPError`), or the
transport error description (bare `URLError`). -/
theorem c6_transport_error (parse : String → Option Json) (parsed : Option Json)
    (tid : String) (streamOut : StreamOutcome) (rpc : Json) (txt : String)
    (raw desc : String)
    (hd : do_POST_dispatch parsed = .send rpc txt) :
    bridgePOST parse parsed tid (.errorWithBody raw) streamOut
      = .json 200 (a2a_error rpc (-32000) ("Gateway error: " ++ pyTruncate raw 500))
    ∧ (pyTruncate raw 500).length ≤ 500
    ∧ bridgePOST parse parsed tid (.errorNoBody desc) streamOut
      = .json 200 (a2a_error rpc (-32000) ("Gateway error: " ++ desc)) := by
  refine ⟨?_, ?_, ?_⟩
  · rw [bridgePOST_send parse parsed tid (.errorWithBody raw) streamOut rpc txt hd]
    rfl
  · show (raw.data.take 500).length ≤ 500
    exact List.length_take_le 500 raw.data
  · rw [bridgePOST_send parse parsed tid (.errorNoBody desc) streamOut rpc txt hd]
    rfl

/-- Witness for C6: a readable upstream error body `"boom"` is embedded
(truncation at 500 characters leaves it unchanged). -/
theorem c6_transport_error_witness :
    bridgePOST jsonParseFix (some sendReq) "task-6" (.errorWithBody "boom") (.ok [])
      = .json 200 (a2a_error (.str "c-4") (-32000) "Gateway error: boom") := by
  rw [(c6_transport_error jsonParseFix (some sendReq) "task-6" (.ok [])
    (.str "c-4") "hi" "boom" "d" rfl).1]
  rfl

/-- Counterexample for C7: on the malformed success body `[]` (a JSON array,
which misses the expected `choices` field), `_handle_send` raises an
uncaught `TypeError` (`data["choices"]` subscripts a list with a string;
only `KeyError`/`IndexError` are caught at line 197), so the bridge crashes
without producing the claimed `-32000` envelope — the failure escapes the
request handler. -/
theorem c7_counterexample :
    bridgePOST jsonParseFix (some sendReq) "task-7" (.ok (.arr [])) (.ok [])
      = .crash .typeError
    ∧ ∀ status body, POSTResult.crash PyErr.typeError ≠ .json status body :=
  ⟨rfl, fun _ _ h => POSTResult.noConfusion h⟩

/-- C7 (amended): on a non-streaming send whose upstream success body makes
the `choices[0].message.content` traversal fail with a `KeyError` or
`IndexError`, the bridge returns a `-32000` envelope describing the
malformed field (the `str()` of the exception); when the traversal instead
hits a value of an unexpected type, the resulting `TypeError` escapes the
handler uncaught. -/
theorem c7_malformed_reply (parse : String → Option Json) (parsed : Option Json)
    (tid : String) (streamOut : StreamOutcome) (rpc : Json) (txt : String)
    (body : Json)
    (hd : do_POST_dispatch parsed = .send rpc txt) :
    (∀ r, sendExtract body = .error (.keyError r) →
      bridgePOST parse parsed tid (.ok body) streamOut
        = .json 200 (a2a_error rpc (-32000) ("Bad gateway response: " ++ r)))
    ∧ (∀ m, sendExtract body = .error (.indexError m) →
      bridgePOST parse parsed tid (.ok body) streamOut
        = .json 200 (a2a_error rpc (-32000) ("Bad gateway response: " ++ m)))
    ∧ (sendExtract body = .error .typeError →
      bridgePOST parse parsed tid (.ok body) streamOut = .crash .typeError) := by
  refine ⟨?_, ?_, ?_⟩
  · intro r hke
    rw [bridgePOST_send parse parsed tid (.ok body) streamOut rpc txt hd]
    simp [handle_send, hke]
  · intro m hie
    rw [bridgePOST_send parse parsed tid (.ok body) streamOut rpc txt hd]
    simp [handle_send, hie]
  · intro hte
    rw [bridgePOST_send parse parsed tid (.ok body) streamOut rpc txt hd]
    simp [handle_send, hte]

/-- Witness for C7 (amended): the body `\x7b\x7d` misses `choices`, and the
bridge answers `-32000` naming the missing field. -/
theorem c7_malformed_reply_witness :
    bridgePOST jsonParseFix (some sendReq) "task-7w" (.ok (.obj [])) (.ok [])
      = .json 200 (a2a_error (.str "c-4") (-32000) "Bad gateway response: 'choices'") :=
  (c7_malformed_reply jsonParseFix (some sendReq) "task-7w" (.ok [])
    (.str "c-4") "hi" (.obj []) rfl).1 "'choices'" rfl

/-! ## Streaming noise handling: C8 -/

/-- The stream that falsifies C8: a payload `5` (valid JSON lacking the
incremental-text field) between the stream start and a valid fragment. -/
def noisyLines : List String :=
  ["data: 5",
   "data: \x7b\"choices\":[\x7b\"delta\":\x7b\"content\":\"a\"\x7d\x7d]\x7d",
   "data: [DONE]"]

/-- Counterexample for C8: the payload `5` parses as JSON and lacks the
incremental-text field, but instead of being silently discarded it raises an
uncaught `AttributeError` (`chunk.get` on an int; line 248 catches only
`JSONDecodeError`/`KeyError`/`IndexError`), aborting the stream: no WORKING
event is emitted for the following valid fragment `"a"` and no COMPLETED
event is emitted at all — whereas the same stream without that line
completes normally. -/
theorem c8_counterexample :
    streamLoop jsonParseFix (.str "rq-8") "task-8" noisyLines "" = ([], some .attributeError)
    ∧ streamLoop jsonParseFix (.str "rq-8") "task-8" (noisyLines.drop 1) ""
      = ([workingEvent (.str "rq-8") "task-8" "a",
          completedEvent (.str "rq-8") "task-8" "a"], none) :=
  ⟨rfl, rfl⟩

/-- A line whose processing is `noise` or `skip` can be removed from the
stream without changing anything the bridge writes. -/
theorem streamLoop_skip_line (parse : String → Option Json) (rpc : Json)
    (tid : String) (l : String)
    (hpl : processLine parse l = .noise ∨ processLine parse l = .skip) :
    ∀ (pre post : List String) (acc : String),
      streamLoop parse rpc tid (pre ++ l :: post) acc
        = streamLoop parse rpc tid (pre ++ post) acc
  | [], post, acc => by
    cases hpl with
    | inl h => simp [streamLoop, h]
    | inr h => simp [streamLoop, h]
  | p :: pre, post, acc => by
    have ih := streamLoop_skip_line parse rpc tid l hpl pre post
    cases hp : processLine parse p <;> simp [streamLoop, hp, ih]

/-- Everything after a `[DONE]` line is never read. -/
theorem streamLoop_done_stop (parse : String → Option Json) (rpc : Json)
    (tid : String) (l : String)
    (hpl : processLine parse l = .done) :
    ∀ (pre post : List String) (acc : String),
      streamLoop parse rpc tid (pre ++ l :: post) acc
        = streamLoop parse rpc tid (pre ++ [l]) acc
  | [], post, acc => by simp [streamLoop, hpl]
  | p :: pre, post, acc => by
    have ih := streamLoop_done_stop parse rpc tid l hpl pre post
    cases hp : processLine parse p <;> simp [streamLoop, hp, ih]

/-- C8 (amended): lines without the `data: ` marker, payloads that fail JSON
parsing, and parsed payloads whose `choices[0].delta.content` traversal
fails with a `KeyError`/`IndexError` or produces a falsy content are all
silently discarded — removing such a line changes nothing the bridge emits,
so the stream continues with subsequent fragments; a payload equal to the
sentinel `[DONE]` ends the upstream read immediately (later lines are never
read).  (Payloads whose traversal hits a value of an unexpected type crash
the stream instead — see the counterexample.) -/
theorem c8_stream_noise (parse : String → Option Json) (rpc : Json)
    (tid : String) (acc : String) (pre post : List String) (l : String) :
    ((processLine parse l = .noise ∨ processLine parse l = .skip) →
      streamLoop parse rpc tid (pre ++ l :: post) acc
        = streamLoop parse rpc tid (pre ++ post) acc)
    ∧ (processLine parse l = .done →
      streamLoop parse rpc tid (pre ++ l :: post) acc
        = streamLoop parse rpc tid (pre ++ [l]) acc)
    ∧ (stripLit "data: ".data (pyStripList l.data) = none →
      processLine parse l = .noise)
    ∧ (∀ pc, stripLit "data: ".data (pyStripList l.data) = some pc →
        String.mk pc ≠ "[DONE]" → parse (String.mk pc) = none →
        processLine parse l = .skip)
    ∧ (∀ pc chunk, stripLit "data: ".data (pyStripList l.data) = some pc →
        String.mk pc ≠ "[DONE]" → parse (String.mk pc) = some chunk →
        ((∃ r, streamDeltaContent chunk = .error (.keyError r))
          ∨ (∃ m, streamDeltaContent chunk = .error (.indexError m))
          ∨ (∃ c, streamDeltaContent chunk = .ok c ∧ pyTruthy c = false)) →
        processLine parse l = .skip)
    ∧ (∀ pc, stripLit "data: ".data (pyStripList l.data) = some pc →
        String.mk pc = "[DONE]" → processLine parse l = .done) := by
  refine ⟨?_, ?_, ?_, ?_, ?_, ?_⟩
  · intro h
    exact streamLoop_skip_line parse rpc tid l h pre post acc
  · intro h
    exact streamLoop_done_stop parse rpc tid l h pre post acc
  · intro hstrip
    unfold processLine
    rw [hstrip]
  · intro pc hstrip hne hparse
    unfold processLine
    rw [hstrip]
    simp [hne, hparse]
  · intro pc chunk hstrip hne hparse hcase
    unfold processLine
    rw [hstrip]
    rcases hcase with ⟨r, hr⟩ | ⟨m, hm⟩ | ⟨c, hc, hcf⟩
    · simp [hne, hparse, hr]
    · simp [hne, hparse, hm]
    · simp [hne, hparse, hc, hcf]
  · intro pc hstrip hdone
    unfold processLine
    rw [hstrip]
    simp [hdone]

/-- Witness for C8 (amended): an SSE comment line between a fragment and the
sentinel contributes nothing — removing it leaves the written events
unchanged. -/
theorem c8_stream_noise_witness :
    streamLoop jsonParseFix (.str "rq-8w") "t8w"
      (["data: \x7b\"choices\":[\x7b\"delta\":\x7b\"content\":\"a\"\x7d\x7d]\x7d"]
        ++ ": keep-alive" :: ["data: [DONE]"]) ""
      = streamLoop jsonParseFix (.str "rq-8w") "t8w"
        (["data: \x7b\"choices\":[\x7b\"delta\":\x7b\"content\":\"a\"\x7d\x7d]\x7d"]
          ++ ["data: [DONE]"]) "" :=
  (c8_stream_noise jsonParseFix (.str "rq-8w") "t8w" ""
    ["data: \x7b\"choices\":[\x7b\"delta\":\x7b\"content\":\"a\"\x7d\x7d]\x7d"]
    ["data: [DONE]"] ": keep-alive").1 (Or.inl rfl)

/-! ## Unknown method: C9 -/

/-- The request that falsifies C9 as stated: its method is neither
`message/send` nor `message/stream`, but it has no text parts. -/
def fooNoTextReq : Json := .obj [("method", .str "message/foo")]

/-- Counterexample for C9: a call whose method is the unrecognized
`message/foo` but whose parts yield no text is answered with the `-32602`
empty-text envelope, not the claimed `-32601` envelope naming the method
(the empty-text validation runs first, lines 168-170). -/
theorem c9_counterexample :
    bridgePOST jsonParseFix (some fooNoTextReq) "task-9" (.ok .null) (.ok [])
      = .json 200 (a2a_error .null (-32602) "No text in message parts")
    ∧ ∀ msg, POSTResult.json 200 (a2a_error .null (-32602) "No text in message parts")
        ≠ .json 200 (a2a_error .null (-32601) msg) := by
  refine ⟨rfl, ?_⟩
  intro msg h
  simp [a2a_error] at h

/-- C9 (amended): for every inbound call with a non-empty derived
textContent whose method is neither `message/send` nor `message/stream`,
the bridge answers HTTP 200 with a `-32601` envelope naming the
unrecognized method and echoing the call's correlation identifier, and
makes no upstream call (the response is independent of both upstream
outcomes). -/
theorem c9_unknown_method (parse : String → Option Json) (req : Json)
    (tid : String) (sendOut sendOut' : GatewayOutcome)
    (streamOut streamOut' : StreamOutcome) (rpc method : Json) (txt : String)
    (hex : extractInbound req = .ok ⟨rpc, method, txt⟩)
    (htxt : txt ≠ "")
    (hm1 : method ≠ .str "message/send")
    (hm2 : method ≠ .str "message/stream") :
    bridgePOST parse (some req) tid sendOut streamOut
      = .json 200 (a2a_error rpc (-32601) ("Unknown method: " ++ pyStr method))
    ∧ bridgePOST parse (some req) tid sendOut streamOut
      = bridgePOST parse (some req) tid sendOut' streamOut' := by
  have hd : do_POST_dispatch (some req)
      = .respond 200 (a2a_error rpc (-32601) ("Unknown method: " ++ pyStr method)) := by
    simp only [do_POST_dispatch]
    rw [hex]
    simp only [if_neg htxt]
    cases method with
    | str s =>
      have hs1 : s ≠ "message/send" := fun h => hm1 (by rw [h])
      have hs2 : s ≠ "message/stream" := fun h => hm2 (by rw [h])
      simp [hs1, hs2]
    | null => rfl
    | bool b => rfl
    | num n => rfl
    | arr xs => rfl
    | obj fs => rfl
  exact ⟨bridgePOST_respond parse (some req) tid sendOut streamOut _ _ hd,
    by rw [bridgePOST_respond parse (some req) tid sendOut streamOut _ _ hd,
      bridgePOST_respond parse (some req) tid sendOut' streamOut' _ _ hd]⟩

/-- A request with text `"hi"` and the unrecognized method `message/foo`. -/
def fooReq : Json :=
  .obj [("id", .num 7), ("method", .str "message/foo"),
        ("params", .obj [("message", .obj [("parts", .arr
          [.obj [("kind", .str "text"), ("text", .str "hi")]])])])]

/-- Witness for C9 (amended): `message/foo` with text present is answered
`-32601` naming `message/foo` and echoing id 7. -/
theorem c9_unknown_method_witness :
    bridgePOST jsonParseFix (some fooReq) "task-9w" (.ok .null) (.ok [])
      = .json 200 (a2a_error (.num 7) (-32601) "Unknown method: message/foo") := by
  rw [(c9_unknown_method jsonParseFix fooReq "task-9w" (.ok .null) (.errorNoBody "e")
    (.ok []) (.ok ["x"]) (.num 7) (.str "message/foo") "hi" rfl
    (by intro h; exact absurd h (by decide))
    (fun h => Json.noConfusion h (fun h' => absurd h' (by decide)))
    (fun h => Json.noConfusion h (fun h' => absurd h' (by decide)))).1]
  rfl
